import Mathlib

/-!
Verification of the pinball scoreboard controller (`game.py`, `hardware.py`).

Shallow embedding conventions:
* Python `int` values (score, high score, balls, letter progress) become `Int`.
* Wall-clock timestamps and cooldown durations become exact rationals `ℚ`;
  the float literals of the source (`0.4`, `0.3`, `0.1`, `0.25`) are written
  with the same decimal notation, and every comparison proved below has the
  same truth value over `ℚ` as over IEEE doubles at these magnitudes.
* Side effects are logged inside the state: sounds played (`play_sound`),
  solenoid pulses started (`pulse_solenoid` via `threading.Thread`), and
  high-score file writes (`save_high_score`).  `print` calls and
  `time.sleep` settle delays carry no state and are not modelled.
* The high-score file is modelled as `Option String` (`none` = missing file);
  Python's `int(...)` parser is embedded for ASCII contents.
-/

/-- The three solenoid gates of `hardware.py` that game logic pulses
(`gate1`, `gate2`, `jackpot_gate`). -/
inductive GateId where
  | gate1
  | gate2
  | jackpot_gate
deriving DecidableEq

/-- `class SystemMode(Enum)` from `game.py`: exactly the members declared in
the source (`ATTRACT_MODE`, `GAMEPLAY_MODE`, `TEST_MODE`). -/
inductive SystemMode where
  | ATTRACT_MODE
  | GAMEPLAY_MODE
  | TEST_MODE
deriving DecidableEq, Fintype

/-- The mutable module-level game state of `game.py`, together with logs of
the emitted side effects (sounds, solenoid pulses, high-score file writes). -/
structure GameState where
  score : Int
  high_score : Int
  balls_left : Int
  collected : Int
  mega_jackpot : Bool
  drop_targets_down : List Bool
  last_hit : ℚ
  last_bumper_hit : Nat → ℚ
  ball_drain_last_state : Bool
  sounds : List String
  pulses : List (GateId × ℚ)
  saves : List Int

-- ============================================================
-- HIGH SCORE STORAGE  (game.py lines 34-62)
-- ============================================================

/-- ASCII whitespace stripped by Python's `str.strip()`. -/
def isPySpace (ch : Char) : Bool :=
  ch = ' ' || ch = '\t' || ch = '\n' || ch = '\r' ||
  ch = Char.ofNat 11 || ch = Char.ofNat 12

/-- `str.strip()` on the character list of the file content. -/
def pyStrip (s : String) : List Char :=
  ((s.toList.dropWhile isPySpace).reverse.dropWhile isPySpace).reverse

/-- Digit groups of a Python integer literal body: digits with single
underscores allowed between digits (as accepted by `int(...)`). -/
def pyDigits : List Char → Nat → Option Nat
  | [], acc => some acc
  | c :: rest, acc =>
    if c.isDigit then pyDigits rest (acc * 10 + (c.toNat - 48))
    else if c = '_' then
      match rest with
      | [] => none
      | c2 :: rest2 =>
        if c2.isDigit then pyDigits rest2 (acc * 10 + (c2.toNat - 48))
        else none
    else none

/-- The digit part must start with a digit (no leading underscore). -/
def pyDigitsStart : List Char → Option Nat
  | [] => none
  | c :: rest => if c.isDigit then pyDigits rest (c.toNat - 48) else none

/-- Python `int(str)` on an already-stripped ASCII character list:
optional sign followed by underscore-grouped digits; `none` models
`ValueError`. -/
def pyParseInt (cs : List Char) : Option Int :=
  match cs with
  | '+' :: rest => (pyDigitsStart rest).map (fun n => (n : Int))
  | '-' :: rest => (pyDigitsStart rest).map (fun n => -(n : Int))
  | _ => (pyDigitsStart cs).map (fun n => (n : Int))

/-- `load_high_score()` (game.py lines 37-45): missing file or a parse /
I O failure yields `0`, otherwise the parsed integer. -/
def load_high_score (file : Option String) : Int :=
  match file with
  | none => 0
  | some content =>
    match pyParseInt (pyStrip content) with
    | some v => v
    | none => 0

/-- `save_high_score(score_value)` (game.py lines 48-54): the attempted file
write, logged; write errors are swallowed. -/
def save_high_score (score_value : Int) (s : GameState) : GameState :=
  { s with saves := s.saves ++ [score_value] }

/-- `update_high_score()` (game.py lines 57-62). -/
def update_high_score (s : GameState) : GameState :=
  if s.score > s.high_score then
    save_high_score s.score { s with high_score := s.score }
  else s

-- ============================================================
-- GAME STATE CONSTANTS  (game.py lines 108-128)
-- ============================================================

def HIT_COOLDOWN : ℚ := 0.4
def BUMPER_COOLDOWN : ℚ := 0.3
def PULSE_TIME : ℚ := 0.1

/-- The initial module-level state of `game.py` (lines 105-128), with the
high score loaded from a missing file. -/
def initState : GameState where
  score := 0
  high_score := load_high_score none
  balls_left := 2
  collected := 0
  mega_jackpot := false
  drop_targets_down := [false, false, false]
  last_hit := 0
  last_bumper_hit := fun _ => 0
  ball_drain_last_state := false
  sounds := []
  pulses := []
  saves := []

/-- `play_sound(name)` from `audio.py`, logged as an effect. -/
def play_sound (name : String) (s : GameState) : GameState :=
  { s with sounds := s.sounds ++ [name] }

-- ============================================================
-- GAME LOGIC / EVENT HANDLERS  (game.py lines 279-364)
-- ============================================================

/-- `on_target_hit()` (game.py lines 279-288); `now` is the value of
`time.time()` at the call. -/
def on_target_hit (now : ℚ) (s : GameState) : GameState :=
  if HIT_COOLDOWN ≤ now - s.last_hit then
    let s1 := { s with score := s.score + 500 }
    let s2 := update_high_score s1
    let s3 := { s2 with last_hit := now }
    play_sound "hit" s3
  else s

/-- `on_bumper_hit(bumper_id)` (game.py lines 291-307); the source reads
`last_bumper_hit[bumper_id]` (a dict with keys 1 and 2), so only
`bumper_id ∈ {1, 2}` corresponds to a run that does not raise `KeyError`. -/
def on_bumper_hit (bumper_id : Nat) (now : ℚ) (s : GameState) : GameState :=
  if BUMPER_COOLDOWN ≤ now - s.last_bumper_hit bumper_id then
    let s1 := { s with score := s.score + 100 }
    let s2 := update_high_score s1
    let s3 := { s2 with
      last_bumper_hit := Function.update s2.last_bumper_hit bumper_id now }
    let s4 := play_sound "bumper" s3
    let gate := if bumper_id = 1 then GateId.gate1 else GateId.gate2
    { s4 with pulses := s4.pulses ++ [(gate, PULSE_TIME)] }
  else s

/-- `len("PIONEER")` as used by `on_goal_scored`. -/
def PIONEER_LEN : Int := ("PIONEER".length : Int)

/-- `on_goal_scored()` (game.py lines 310-332). -/
def on_goal_scored (s : GameState) : GameState :=
  let s1 := update_high_score { s with score := s.score + 2000 }
  let s2 := if s1.collected < PIONEER_LEN then
              { s1 with collected := s1.collected + 1 }
            else s1
  let s3 := play_sound "jackpot" s2
  if s3.collected = PIONEER_LEN then
    let s4 := { s3 with mega_jackpot := true }
    let s5 := update_high_score { s4 with score := s4.score + 10000 }
    let s6 := play_sound "jackpot" s5
    { s6 with collected := 0, mega_jackpot := false }
  else s3

/-- `on_drop_target_hit(target_num)` (game.py lines 335-354); the source
indexes `drop_targets_down[target_num - 1]` on a 3-element list, so only
`target_num ∈ {1, 2, 3}` corresponds to an in-range run. -/
def on_drop_target_hit (target_num : Nat) (s : GameState) : GameState :=
  let idx := target_num - 1
  let dt := if s.drop_targets_down.getD idx false = false then
              s.drop_targets_down.set idx true
            else s.drop_targets_down
  if dt.all (fun b => b) then
    { s with drop_targets_down := [false, false, false],
             pulses := s.pulses ++ [(GateId.jackpot_gate, 0.25)] }
  else
    { s with drop_targets_down := dt }

/-- `on_ball_drained()` (game.py lines 357-364). -/
def on_ball_drained (s : GameState) : GameState :=
  if 0 < s.balls_left then { s with balls_left := s.balls_left - 1 } else s

/-- `check_game_over()` (game.py lines 810-823): the game-over screen blocks
until acknowledged, then the full game state is reset with the high score
kept. -/
def check_game_over (s : GameState) : GameState :=
  if s.balls_left ≤ 0 then
    { s with score := 0, balls_left := 2, collected := 0,
             mega_jackpot := false }
  else s

-- ============================================================
-- LOOPS OVER THE HANDLERS
-- ============================================================

/-- A sequence of `on_goal_scored()` calls. -/
def run_goals : Nat → GameState → GameState
  | 0, s => s
  | k + 1, s => on_goal_scored (run_goals k s)

/-- A sequence of `on_drop_target_hit` calls, first element first. -/
def run_drops : List Nat → GameState → GameState
  | [], s => s
  | n :: rest, s => run_drops rest (on_drop_target_hit n s)

/-- The ball-drain section of `poll_hardware_inputs()` (game.py lines
794-799), iterated over a sequence of sensor readings, returning the final
state together with the number of `on_ball_drained()` invocations made. -/
def poll_drain_run : List Bool → GameState → GameState × Nat
  | [], s => (s, 0)
  | r :: rest, s =>
    let fired := r && !s.ball_drain_last_state
    let s1 := if fired then on_ball_drained s else s
    let res := poll_drain_run rest { s1 with ball_drain_last_state := r }
    (res.1, (if fired then 1 else 0) + res.2)

/-- Count of false-to-true transitions in a reading sequence, given the
previous reading: the spec's notion of one event per physical insertion. -/
def risingEdges : Bool → List Bool → Nat
  | _, [] => 0
  | last, r :: rest => (if r && !last then 1 else 0) + risingEdges r rest

/-- One gameplay event dispatched by the main loop. -/
inductive GEvent where
  | targetHit (now : ℚ)
  | bumperHit (bumper_id : Nat) (now : ℚ)
  | goalScored
  | dropHit (target_num : Nat)
  | ballDrained
  | gameOverCheck

/-- Dispatch one event to its handler. -/
def stepEvent (s : GameState) (e : GEvent) : GameState :=
  match e with
  | GEvent.targetHit now => on_target_hit now s
  | GEvent.bumperHit bumper_id now => on_bumper_hit bumper_id now s
  | GEvent.goalScored => on_goal_scored s
  | GEvent.dropHit target_num => on_drop_target_hit target_num s
  | GEvent.ballDrained => on_ball_drained s
  | GEvent.gameOverCheck => check_game_over s

/-- A session: a sequence of dispatched events. -/
def runEvents (es : List GEvent) (s : GameState) : GameState :=
  es.foldl stepEvent s

-- ============================================================
-- COMPONENT LEMMAS
-- ============================================================

@[simp] theorem uhs_score (s : GameState) :
    (update_high_score s).score = s.score := by
  unfold update_high_score save_high_score; split <;> rfl

@[simp] theorem uhs_collected (s : GameState) :
    (update_high_score s).collected = s.collected := by
  unfold update_high_score save_high_score; split <;> rfl

@[simp] theorem uhs_mega (s : GameState) :
    (update_high_score s).mega_jackpot = s.mega_jackpot := by
  unfold update_high_score save_high_score; split <;> rfl

@[simp] theorem uhs_balls (s : GameState) :
    (update_high_score s).balls_left = s.balls_left := by
  unfold update_high_score save_high_score; split <;> rfl

@[simp] theorem uhs_last_hit (s : GameState) :
    (update_high_score s).last_hit = s.last_hit := by
  unfold update_high_score save_high_score; split <;> rfl

@[simp] theorem uhs_last_bumper (s : GameState) :
    (update_high_score s).last_bumper_hit = s.last_bumper_hit := by
  unfold update_high_score save_high_score; split <;> rfl

@[simp] theorem uhs_drop (s : GameState) :
    (update_high_score s).drop_targets_down = s.drop_targets_down := by
  unfold update_high_score save_high_score; split <;> rfl

@[simp] theorem uhs_drain (s : GameState) :
    (update_high_score s).ball_drain_last_state = s.ball_drain_last_state := by
  unfold update_high_score save_high_score; split <;> rfl

@[simp] theorem uhs_pulses (s : GameState) :
    (update_high_score s).pulses = s.pulses := by
  unfold update_high_score save_high_score; split <;> rfl

theorem uhs_high (s : GameState) :
    (update_high_score s).high_score =
      if s.score > s.high_score then s.score else s.high_score := by
  unfold update_high_score save_high_score; split <;> rfl

theorem on_target_hit_accept (now : ℚ) (s : GameState)
    (h : HIT_COOLDOWN ≤ now - s.last_hit) :
    (on_target_hit now s).score = s.score + 500 ∧
    (on_target_hit now s).last_hit = now := by
  simp [on_target_hit, if_pos h, play_sound]

theorem on_target_hit_reject (now : ℚ) (s : GameState)
    (h : now - s.last_hit < HIT_COOLDOWN) :
    on_target_hit now s = s := by
  simp [on_target_hit, if_neg (not_le.mpr h)]

theorem on_bumper_hit_accept (bumper_id : Nat) (now : ℚ) (s : GameState)
    (h : BUMPER_COOLDOWN ≤ now - s.last_bumper_hit bumper_id) :
    (on_bumper_hit bumper_id now s).score = s.score + 100 ∧
    (on_bumper_hit bumper_id now s).last_bumper_hit bumper_id = now := by
  simp [on_bumper_hit, if_pos h, play_sound]

theorem on_bumper_hit_reject (bumper_id : Nat) (now : ℚ) (s : GameState)
    (h : now - s.last_bumper_hit bumper_id < BUMPER_COOLDOWN) :
    on_bumper_hit bumper_id now s = s := by
  simp [on_bumper_hit, if_neg (not_le.mpr h)]

-- ============================================================
-- C1: per-input debounce contract
-- ============================================================

/-- C1: a call with a configured cooldown (strike plate 0.4s via
`on_target_hit`, each bumper id 0.3s via `on_bumper_hit`) awards the fixed
score delta and records `now` as the new last-accepted time iff
`now - lastAccepted >= cooldown`; when the check fails the call leaves the
whole state unchanged (score, high score, timestamps, and the sound /
solenoid / save logs). -/
theorem C1_debounce_iff (now : ℚ) (bumper_id : Nat) (s : GameState)
    (_hid : bumper_id = 1 ∨ bumper_id = 2) :
    ((HIT_COOLDOWN ≤ now - s.last_hit →
        (on_target_hit now s).score = s.score + 500 ∧
        (on_target_hit now s).last_hit = now) ∧
     (now - s.last_hit < HIT_COOLDOWN → on_target_hit now s = s)) ∧
    ((BUMPER_COOLDOWN ≤ now - s.last_bumper_hit bumper_id →
        (on_bumper_hit bumper_id now s).score = s.score + 100 ∧
        (on_bumper_hit bumper_id now s).last_bumper_hit bumper_id = now) ∧
     (now - s.last_bumper_hit bumper_id < BUMPER_COOLDOWN →
        on_bumper_hit bumper_id now s = s)) := by
  exact ⟨⟨on_target_hit_accept now s, on_target_hit_reject now s⟩,
         ⟨on_bumper_hit_accept bumper_id now s,
          on_bumper_hit_reject bumper_id now s⟩⟩

/-- C1 witness: concrete accept and reject calls from the initial state. -/
theorem C1_debounce_iff_witness :
    (on_target_hit 1 initState).score = initState.score + 500 ∧
    on_target_hit 0 initState = initState ∧
    (on_bumper_hit 2 1 initState).score = initState.score + 100 := by
  have h1 := C1_debounce_iff 1 2 initState (Or.inr rfl)
  have h0 := C1_debounce_iff 0 2 initState (Or.inr rfl)
  refine ⟨(h1.1.1 ?_).1, h0.1.2 ?_, (h1.2.1 ?_).1⟩ <;>
    norm_num [initState, HIT_COOLDOWN, BUMPER_COOLDOWN]

-- ============================================================
-- C2: debounce scenario
-- ============================================================

/-- C2 counterexample: from the initial state the source keeps
`last_hit = 0.0`, so a target-hit attempt at t = 0.0 computes
`0.0 - 0.0 >= 0.4` = false and is itself rejected; the attempts at t = 0.0
and t = 0.3 leave the state unchanged with score 0, not one acceptance
worth 500. -/
theorem C2_scenario_counterexample :
    on_target_hit 0.3 (on_target_hit 0 initState) = initState ∧
    initState.score = 0 := by
  have h1 : on_target_hit 0 initState = initState := by
    unfold on_target_hit
    rw [if_neg (by norm_num [initState, HIT_COOLDOWN])]
  have h2 : on_target_hit 0.3 initState = initState := by
    unfold on_target_hit
    rw [if_neg (by norm_num [initState, HIT_COOLDOWN])]
  exact ⟨by rw [h1, h2], rfl⟩

/-- C2 (amended): provided the first attempt itself passes the cooldown
check (true of any attempt at least one cooldown after the recorded
last-accepted time, e.g. t = 1.0 from the initial state, though not of the
claim's literal t = 0.0), target-hit attempts at t, t+0.3 accept exactly
the first (score +500 once) and a third attempt at t+0.5 is accepted again
(total 1000); in general two attempts separated by less than the cooldown
yield exactly one accepted event and two attempts separated by at least
the cooldown yield two, for the strike plate and for each bumper id. -/
theorem C2_scenario_amended :
    ((on_target_hit 1.3 (on_target_hit 1 initState)).score = 500 ∧
     (on_target_hit 1.5 (on_target_hit 1.3 (on_target_hit 1 initState))).score
       = 1000) ∧
    (∀ (t1 t2 : ℚ) (s : GameState), HIT_COOLDOWN ≤ t1 - s.last_hit →
      (t2 - t1 < HIT_COOLDOWN →
        (on_target_hit t2 (on_target_hit t1 s)).score = s.score + 500) ∧
      (HIT_COOLDOWN ≤ t2 - t1 →
        (on_target_hit t2 (on_target_hit t1 s)).score = s.score + 1000)) ∧
    (∀ (bumper_id : Nat) (t1 t2 : ℚ) (s : GameState),
      BUMPER_COOLDOWN ≤ t1 - s.last_bumper_hit bumper_id →
      (t2 - t1 < BUMPER_COOLDOWN →
        (on_bumper_hit bumper_id t2 (on_bumper_hit bumper_id t1 s)).score
          = s.score + 100) ∧
      (BUMPER_COOLDOWN ≤ t2 - t1 →
        (on_bumper_hit bumper_id t2 (on_bumper_hit bumper_id t1 s)).score
          = s.score + 200)) := by
  have general_t : ∀ (t1 t2 : ℚ) (s : GameState),
      HIT_COOLDOWN ≤ t1 - s.last_hit →
      (t2 - t1 < HIT_COOLDOWN →
        (on_target_hit t2 (on_target_hit t1 s)).score = s.score + 500) ∧
      (HIT_COOLDOWN ≤ t2 - t1 →
        (on_target_hit t2 (on_target_hit t1 s)).score = s.score + 1000) := by
    intro t1 t2 s h1
    have ha := on_target_hit_accept t1 s h1
    constructor
    · intro h2
      rw [on_target_hit_reject t2 (on_target_hit t1 s) (by rw [ha.2]; exact h2)]
      exact ha.1
    · intro h2
      have hb := on_target_hit_accept t2 (on_target_hit t1 s)
        (by rw [ha.2]; exact h2)
      rw [hb.1, ha.1]; ring
  have general_b : ∀ (bumper_id : Nat) (t1 t2 : ℚ) (s : GameState),
      BUMPER_COOLDOWN ≤ t1 - s.last_bumper_hit bumper_id →
      (t2 - t1 < BUMPER_COOLDOWN →
        (on_bumper_hit bumper_id t2 (on_bumper_hit bumper_id t1 s)).score
          = s.score + 100) ∧
      (BUMPER_COOLDOWN ≤ t2 - t1 →
        (on_bumper_hit bumper_id t2 (on_bumper_hit bumper_id t1 s)).score
          = s.score + 200) := by
    intro bumper_id t1 t2 s h1
    have ha := on_bumper_hit_accept bumper_id t1 s h1
    constructor
    · intro h2
      rw [on_bumper_hit_reject bumper_id t2 (on_bumper_hit bumper_id t1 s)
        (by rw [ha.2]; exact h2)]
      exact ha.1
    · intro h2
      have hb := on_bumper_hit_accept bumper_id t2 (on_bumper_hit bumper_id t1 s)
        (by rw [ha.2]; exact h2)
      rw [hb.1, ha.1]; ring
  refine ⟨?_, general_t, general_b⟩
  have h1 := general_t 1 1.3 initState (by norm_num [initState, HIT_COOLDOWN])
  have hfirst2 : (on_target_hit 1.3 (on_target_hit 1 initState)).score = 500 := by
    have := h1.1 (by norm_num [HIT_COOLDOWN])
    simpa [initState] using this
  refine ⟨hfirst2, ?_⟩
  have ha := on_target_hit_accept 1 initState
    (by norm_num [initState, HIT_COOLDOWN])
  have hmid : on_target_hit 1.3 (on_target_hit 1 initState)
      = on_target_hit 1 initState := by
    exact on_target_hit_reject 1.3 (on_target_hit 1 initState)
      (by rw [ha.2]; norm_num [HIT_COOLDOWN])
  rw [hmid]
  have h2 := general_t 1 1.5 initState (by norm_num [initState, HIT_COOLDOWN])
  have := h2.2 (by norm_num [HIT_COOLDOWN])
  simpa [initState] using this

/-- C2 amended witness: concrete instantiations of the general clauses. -/
theorem C2_scenario_amended_witness :
    (on_target_hit 2.0 (on_target_hit 1.7 initState)).score
      = initState.score + 500 ∧
    (on_bumper_hit 1 2.0 (on_bumper_hit 1 1.0 initState)).score
      = initState.score + 200 := by
  have h := C2_scenario_amended
  exact ⟨(h.2.1 1.7 2.0 initState
            (by norm_num [initState, HIT_COOLDOWN])).1
            (by norm_num [HIT_COOLDOWN]),
         (h.2.2 1 1.0 2.0 initState
            (by norm_num [initState, BUMPER_COOLDOWN])).2
            (by norm_num [BUMPER_COOLDOWN])⟩

-- ============================================================
-- C3: PIONEER progress and the mega jackpot
-- ============================================================

theorem pioneer_len_eq : PIONEER_LEN = 7 := by decide

theorem on_goal_advance (s : GameState) (h : s.collected < 6) :
    (on_goal_scored s).collected = s.collected + 1 ∧
    (on_goal_scored s).score = s.score + 2000 ∧
    (on_goal_scored s).mega_jackpot = s.mega_jackpot := by
  unfold on_goal_scored
  simp only [uhs_score, uhs_collected, uhs_mega, play_sound, pioneer_len_eq]
  rw [if_pos (by omega : s.collected < (7 : Int))]
  rw [if_neg (by simp; omega)]
  simp

theorem on_goal_jackpot (s : GameState) (h : s.collected = 6) :
    (on_goal_scored s).collected = 0 ∧
    (on_goal_scored s).mega_jackpot = false ∧
    (on_goal_scored s).score = s.score + 12000 := by
  unfold on_goal_scored
  simp only [uhs_score, uhs_collected, uhs_mega, play_sound, pioneer_len_eq]
  rw [if_pos (by omega : s.collected < (7 : Int))]
  rw [if_pos (by simp; omega)]
  simp; omega

theorem run_goals_progress (s0 : GameState) (h0 : s0.collected = 0) :
    ∀ k : Nat, k ≤ 6 →
      (run_goals k s0).collected = (k : Int) ∧
      (run_goals k s0).score = s0.score + 2000 * k ∧
      (run_goals k s0).mega_jackpot = s0.mega_jackpot := by
  intro k
  induction k with
  | zero => intro _; simp [run_goals, h0]
  | succ n ih =>
    intro hk
    have hn := ih (by omega)
    have hadv := on_goal_advance (run_goals n s0) (by rw [hn.1]; omega)
    refine ⟨?_, ?_, ?_⟩
    · rw [run_goals, hadv.1, hn.1]; push_cast; ring
    · rw [run_goals, hadv.2.1, hn.2.1]; push_cast; ring
    · rw [run_goals, hadv.2.2, hn.2.2]

/-- C3: starting from progress 0, each of 7 consecutive `on_goal_scored`
calls adds 2000 and advances progress by 1; no 10000 bonus is included in
the score of any run shorter than 7; the 7th call adds the 10000 bonus
exactly once, and after it returns the progress is 0 and the jackpot flag
is false (the flag is set and cleared inside that same invocation). -/
theorem C3_goal_jackpot (s0 : GameState) (h0 : s0.collected = 0)
    (hm : s0.mega_jackpot = false) :
    (∀ k : Nat, k < 7 →
      (run_goals k s0).collected = (k : Int) ∧
      (run_goals k s0).score = s0.score + 2000 * k ∧
      (run_goals k s0).mega_jackpot = false) ∧
    (run_goals 7 s0).collected = 0 ∧
    (run_goals 7 s0).mega_jackpot = false ∧
    (run_goals 7 s0).score = s0.score + 2000 * 7 + 10000 := by
  have hprog := run_goals_progress s0 h0
  constructor
  · intro k hk
    have h := hprog k (by omega)
    exact ⟨h.1, h.2.1, by rw [h.2.2, hm]⟩
  · have h6 := hprog 6 (by omega)
    have hj := on_goal_jackpot (run_goals 6 s0) h6.1
    have h7 : run_goals 7 s0 = on_goal_scored (run_goals 6 s0) := rfl
    refine ⟨by rw [h7, hj.1], by rw [h7, hj.2.1], ?_⟩
    rw [h7, hj.2.2, h6.2.1]; push_cast; ring

/-- C3 witness: the 7-goal run from the initial state. -/
theorem C3_goal_jackpot_witness :
    (run_goals 3 initState).collected = 3 ∧
    (run_goals 3 initState).score = initState.score + 2000 * 3 ∧
    (run_goals 7 initState).collected = 0 ∧
    (run_goals 7 initState).mega_jackpot = false ∧
    (run_goals 7 initState).score = initState.score + 2000 * 7 + 10000 := by
  have h := C3_goal_jackpot initState rfl rfl
  have h3 := h.1 3 (by omega)
  exact ⟨h3.1, h3.2.1, h.2.1, h.2.2.1, h.2.2.2⟩

-- ============================================================
-- C4 / C10: drop-target bank
-- ============================================================

theorem run_drops_append (l1 l2 : List Nat) (s : GameState) :
    run_drops (l1 ++ l2) s = run_drops l2 (run_drops l1 s) := by
  induction l1 generalizing s with
  | nil => rfl
  | cons n rest ih => simp [run_drops, ih]

theorem on_drop_step (n : Nat) (s : GameState) (a b c : Bool)
    (hn : n = 1 ∨ n = 2 ∨ n = 3)
    (hdrop : s.drop_targets_down = [a, b, c])
    (hcov : ¬((a = true ∨ n = 1) ∧ (b = true ∨ n = 2) ∧ (c = true ∨ n = 3))) :
    on_drop_target_hit n s =
      { s with drop_targets_down :=
          [a || decide (n = 1), b || decide (n = 2), c || decide (n = 3)] } := by
  unfold on_drop_target_hit
  rcases hn with rfl | rfl | rfl <;> rw [hdrop] <;>
    cases a <;> cases b <;> cases c <;> simp_all

theorem run_drops_incomplete (l : List Nat) :
    ∀ (s : GameState) (a b c : Bool),
      (∀ n ∈ l, n = 1 ∨ n = 2 ∨ n = 3) →
      s.drop_targets_down = [a, b, c] →
      ¬((a = true ∨ 1 ∈ l) ∧ (b = true ∨ 2 ∈ l) ∧ (c = true ∨ 3 ∈ l)) →
      run_drops l s =
        { s with drop_targets_down :=
            [a || decide (1 ∈ l), b || decide (2 ∈ l), c || decide (3 ∈ l)] } := by
  induction l with
  | nil =>
    intro s a b c _ hdrop _
    simp only [run_drops, List.mem_nil_iff, decide_False, Bool.or_false]
    rw [← hdrop]
  | cons n rest ih =>
    intro s a b c hl hdrop hcov
    have hl2 : ∀ m ∈ rest, m = 1 ∨ m = 2 ∨ m = 3 := fun m hm =>
      hl m (List.mem_cons_of_mem n hm)
    have hmemn : n ∈ n :: rest := List.mem_cons_self n rest
    rcases hl n hmemn with rfl | rfl | rfl
    · -- n = 1
      have hstep := on_drop_step 1 s a b c (Or.inl rfl) hdrop (by
        rintro ⟨h1, h2, h3⟩
        refine hcov ⟨Or.inr hmemn, ?_, ?_⟩
        · rcases h2 with hb | hn2
          · exact Or.inl hb
          · exact absurd hn2 (by norm_num)
        · rcases h3 with hc | hn3
          · exact Or.inl hc
          · exact absurd hn3 (by norm_num))
      simp at hstep
      have heq : run_drops (1 :: rest) s = run_drops rest (on_drop_target_hit 1 s) := rfl
      rw [heq, hstep]
      have ihr := ih { s with drop_targets_down := [true, b, c] } true b c hl2 rfl (by
        rintro ⟨_, h2, h3⟩
        refine hcov ⟨Or.inr hmemn, ?_, ?_⟩
        · rcases h2 with hb | hn2
          · exact Or.inl hb
          · exact Or.inr (List.mem_cons_of_mem 1 hn2)
        · rcases h3 with hc | hn3
          · exact Or.inl hc
          · exact Or.inr (List.mem_cons_of_mem 1 hn3))
      rw [ihr]
      simp [List.mem_cons]
    · -- n = 2
      have hstep := on_drop_step 2 s a b c (Or.inr (Or.inl rfl)) hdrop (by
        rintro ⟨h1, h2, h3⟩
        refine hcov ⟨?_, Or.inr hmemn, ?_⟩
        · rcases h1 with ha | hn1
          · exact Or.inl ha
          · exact absurd hn1 (by norm_num)
        · rcases h3 with hc | hn3
          · exact Or.inl hc
          · exact absurd hn3 (by norm_num))
      simp at hstep
      have heq : run_drops (2 :: rest) s = run_drops rest (on_drop_target_hit 2 s) := rfl
      rw [heq, hstep]
      have ihr := ih { s with drop_targets_down := [a, true, c] } a true c hl2 rfl (by
        rintro ⟨h1, _, h3⟩
        refine hcov ⟨?_, Or.inr hmemn, ?_⟩
        · rcases h1 with ha | hn1
          · exact Or.inl ha
          · exact Or.inr (List.mem_cons_of_mem 2 hn1)
        · rcases h3 with hc | hn3
          · exact Or.inl hc
          · exact Or.inr (List.mem_cons_of_mem 2 hn3))
      rw [ihr]
      simp [List.mem_cons]
    · -- n = 3
      have hstep := on_drop_step 3 s a b c (Or.inr (Or.inr rfl)) hdrop (by
        rintro ⟨h1, h2, h3⟩
        refine hcov ⟨?_, ?_, Or.inr hmemn⟩
        · rcases h1 with ha | hn1
          · exact Or.inl ha
          · exact absurd hn1 (by norm_num)
        · rcases h2 with hb | hn2
          · exact Or.inl hb
          · exact absurd hn2 (by norm_num))
      simp at hstep
      have heq : run_drops (3 :: rest) s = run_drops rest (on_drop_target_hit 3 s) := rfl
      rw [heq, hstep]
      have ihr := ih { s with drop_targets_down := [a, b, true] } a b true hl2 rfl (by
        rintro ⟨h1, h2, _⟩
        refine hcov ⟨?_, ?_, Or.inr hmemn⟩
        · rcases h1 with ha | hn1
          · exact Or.inl ha
          · exact Or.inr (List.mem_cons_of_mem 3 hn1)
        · rcases h2 with hb | hn2
          · exact Or.inl hb
          · exact Or.inr (List.mem_cons_of_mem 3 hn2))
      rw [ihr]
      simp [List.mem_cons]

theorem on_drop_complete (t : Nat) (s : GameState) (a b c : Bool)
    (ht : t = 1 ∨ t = 2 ∨ t = 3)
    (hdrop : s.drop_targets_down = [a, b, c])
    (hcov : (a = true ∨ t = 1) ∧ (b = true ∨ t = 2) ∧ (c = true ∨ t = 3)) :
    on_drop_target_hit t s =
      { s with drop_targets_down := [false, false, false],
               pulses := s.pulses ++ [(GateId.jackpot_gate, 0.25)] } := by
  unfold on_drop_target_hit
  rcases ht with rfl | rfl | rfl <;> rw [hdrop] <;>
    cases a <;> cases b <;> cases c <;> simp_all

/-- C4: from the all-up bank, a hit sequence that never covers all three
targets starts no reset pulse; extending such a sequence by the hit that
completes the bank yields exactly one new pulse, on `jackpot_gate` with
duration 0.25s, and that completing call leaves all three down-flags false
(and every other state component unchanged). -/
theorem C4_drop_bank (l : List Nat) (t : Nat) (s : GameState)
    (hl : ∀ n ∈ l, n = 1 ∨ n = 2 ∨ n = 3)
    (ht : t = 1 ∨ t = 2 ∨ t = 3)
    (hdrop : s.drop_targets_down = [false, false, false])
    (hncov : ¬(1 ∈ l ∧ 2 ∈ l ∧ 3 ∈ l)) :
    (run_drops l s).pulses = s.pulses ∧
    (((1 ∈ l ∨ t = 1) ∧ (2 ∈ l ∨ t = 2) ∧ (3 ∈ l ∨ t = 3)) →
      run_drops (l ++ [t]) s =
        { s with pulses := s.pulses ++ [(GateId.jackpot_gate, 0.25)] } ∧
      (run_drops (l ++ [t]) s).drop_targets_down = [false, false, false]) := by
  have hpart := run_drops_incomplete l s false false false hl hdrop (by
    rintro ⟨h1, h2, h3⟩
    refine hncov ⟨?_, ?_, ?_⟩
    · rcases h1 with hf | hm
      · exact absurd hf (by simp)
      · exact hm
    · rcases h2 with hf | hm
      · exact absurd hf (by simp)
      · exact hm
    · rcases h3 with hf | hm
      · exact absurd hf (by simp)
      · exact hm)
  constructor
  · rw [hpart]
  · intro hcomp
    have happ : run_drops (l ++ [t]) s = on_drop_target_hit t (run_drops l s) := by
      rw [run_drops_append]; rfl
    have hflags : (run_drops l s).drop_targets_down =
        [decide (1 ∈ l), decide (2 ∈ l), decide (3 ∈ l)] := by
      rw [hpart]; simp
    have hcompl := on_drop_complete t (run_drops l s)
      (decide (1 ∈ l)) (decide (2 ∈ l)) (decide (3 ∈ l)) ht hflags (by
        refine ⟨?_, ?_, ?_⟩
        · rcases hcomp.1 with hm | hteq
          · exact Or.inl (by simpa using hm)
          · exact Or.inr hteq
        · rcases hcomp.2.1 with hm | hteq
          · exact Or.inl (by simpa using hm)
          · exact Or.inr hteq
        · rcases hcomp.2.2 with hm | hteq
          · exact Or.inl (by simpa using hm)
          · exact Or.inr hteq)
    have hfinal : run_drops (l ++ [t]) s =
        { s with pulses := s.pulses ++ [(GateId.jackpot_gate, 0.25)] } := by
      rw [happ, hcompl, hpart]
      rw [← hdrop]
    exact ⟨hfinal, by rw [hfinal]; exact hdrop⟩

/-- C4 witness: hits 1, 2 start no pulse; hit 3 completes the bank, starts
one 0.25s pulse on the reset solenoid, and clears the flags. -/
theorem C4_drop_bank_witness :
    (run_drops [1, 2] initState).pulses = initState.pulses ∧
    run_drops [1, 2, 3] initState =
      { initState with pulses := initState.pulses ++ [(GateId.jackpot_gate, 0.25)] } ∧
    (run_drops [1, 2, 3] initState).drop_targets_down = [false, false, false] := by
  have h := C4_drop_bank [1, 2] 3 initState
    (by intro n hn; fin_cases hn <;> simp) (by norm_num) rfl (by decide)
  have h2 := h.2 (by decide)
  exact ⟨h.1, h2.1, h2.2⟩

/-- C10: hitting a drop target that is already marked down, when the bank is
not fully down, changes nothing: flags, score, high score, balls, progress,
jackpot flag, and the pulse log are all exactly as before. -/
theorem C10_drop_idempotent (target_num : Nat) (s : GameState)
    (hdown : s.drop_targets_down.getD (target_num - 1) false = true)
    (hnall : s.drop_targets_down.all (fun b => b) = false) :
    on_drop_target_hit target_num s = s := by
  unfold on_drop_target_hit
  simp only [hdown]
  simp only [if_neg (show ¬(true = false) by simp)]
  simp only [hnall]
  simp only [if_neg (show ¬(false = true) by simp)]

/-- C10 witness: re-hitting the already-down target 1 with targets 2 and 3
still up is a no-op. -/
theorem C10_drop_idempotent_witness :
    on_drop_target_hit 1 { initState with drop_targets_down := [true, false, false] }
      = { initState with drop_targets_down := [true, false, false] } :=
  C10_drop_idempotent 1 _ (by rfl) (by rfl)

-- ============================================================
-- C5: ball-drain edge detection
-- ============================================================

theorem on_ball_drained_pos (s : GameState) (h : 0 < s.balls_left) :
    (on_ball_drained s).balls_left = s.balls_left - 1 := by
  simp [on_ball_drained, if_pos h]

theorem on_ball_drained_floor (s : GameState) (h : s.balls_left = 0) :
    (on_ball_drained s).balls_left = 0 := by
  simp [on_ball_drained, h]

theorem on_ball_drained_nonneg (s : GameState) (h : 0 ≤ s.balls_left) :
    0 ≤ (on_ball_drained s).balls_left := by
  unfold on_ball_drained
  split <;> (try dsimp only) <;> omega

theorem poll_drain_run_spec (rs : List Bool) :
    ∀ s : GameState, 0 ≤ s.balls_left →
      (poll_drain_run rs s).2 = risingEdges s.ball_drain_last_state rs ∧
      (poll_drain_run rs s).1.balls_left =
        max (s.balls_left - ((poll_drain_run rs s).2 : Int)) 0 := by
  induction rs with
  | nil =>
    intro s hs
    refine ⟨rfl, ?_⟩
    simp only [poll_drain_run]
    omega
  | cons r rest ih =>
    intro s hs
    cases hb : (r && !s.ball_drain_last_state) with
    | true =>
      have hs1 := on_ball_drained_nonneg s hs
      have ihr := ih { on_ball_drained s with ball_drain_last_state := r } hs1
      constructor
      · simp only [poll_drain_run, risingEdges, hb, if_true]
        rw [ihr.1]
      · simp only [poll_drain_run, risingEdges, hb, if_true]
        rw [ihr.2]
        dsimp only
        unfold on_ball_drained
        split <;> (try dsimp only) <;> omega
    | false =>
      have ihr := ih { s with ball_drain_last_state := r } hs
      constructor
      · simp only [poll_drain_run, risingEdges, hb, Bool.false_eq_true,
          if_false, Nat.zero_add]
        exact ihr.1
      · simp only [poll_drain_run, risingEdges, hb, Bool.false_eq_true,
          if_false, Nat.zero_add]
        exact ihr.2

/-- C5: over any reading sequence of the drain sensor, the polling loop
invokes `on_ball_drained` exactly once per false-to-true transition (so a
sustained pressed reading fires once), each invocation decrements
balls-remaining by 1 when it is positive and leaves it at 0 otherwise, and
balls-remaining never becomes negative. -/
theorem C5_drain_edges (rs : List Bool) (s : GameState)
    (hball : 0 ≤ s.balls_left) :
    (poll_drain_run rs s).2 = risingEdges s.ball_drain_last_state rs ∧
    (poll_drain_run rs s).1.balls_left =
      max (s.balls_left - ((poll_drain_run rs s).2 : Int)) 0 ∧
    0 ≤ (poll_drain_run rs s).1.balls_left ∧
    (∀ u : GameState, 0 < u.balls_left →
      (on_ball_drained u).balls_left = u.balls_left - 1) ∧
    (∀ u : GameState, u.balls_left = 0 → (on_ball_drained u).balls_left = 0) := by
  have h := poll_drain_run_spec rs s hball
  exact ⟨h.1, h.2, by rw [h.2]; omega, on_ball_drained_pos, on_ball_drained_floor⟩

/-- C5 witness: three consecutive pressed readings from the initial state
decrement exactly once. -/
theorem C5_drain_edges_witness :
    (poll_drain_run [true, true, true] initState).2 = 1 ∧
    (poll_drain_run [true, true, true] initState).1.balls_left = 1 := by
  have h := C5_drain_edges [true, true, true] initState (by norm_num [initState])
  constructor
  · rw [h.1]; rfl
  · rw [h.2.1, h.1]
    norm_num [initState, risingEdges]

-- ============================================================
-- C6: high-score monotonicity and persistence
-- ============================================================

theorem on_drop_score (n : Nat) (s : GameState) :
    (on_drop_target_hit n s).score = s.score := by
  simp only [on_drop_target_hit]; split <;> split <;> rfl

theorem on_drop_high (n : Nat) (s : GameState) :
    (on_drop_target_hit n s).high_score = s.high_score := by
  simp only [on_drop_target_hit]; split <;> split <;> rfl

theorem on_drained_score (s : GameState) :
    (on_ball_drained s).score = s.score := by
  unfold on_ball_drained; split <;> rfl

theorem on_drained_high (s : GameState) :
    (on_ball_drained s).high_score = s.high_score := by
  unfold on_ball_drained; split <;> rfl

theorem check_game_over_high (s : GameState) :
    (check_game_over s).high_score = s.high_score := by
  unfold check_game_over; split <;> rfl

theorem stepEvent_inv (s : GameState) (e : GEvent)
    (h0 : 0 ≤ s.score) (h1 : s.score ≤ s.high_score) :
    0 ≤ (stepEvent s e).score ∧
    (stepEvent s e).score ≤ (stepEvent s e).high_score ∧
    s.high_score ≤ (stepEvent s e).high_score := by
  cases e with
  | targetHit now =>
    dsimp only [stepEvent]
    unfold on_target_hit
    split_ifs
    · simp only [play_sound, uhs_score, uhs_high]
      split_ifs <;> omega
    · exact ⟨h0, h1, le_refl _⟩
  | bumperHit bumper_id now =>
    dsimp only [stepEvent]
    unfold on_bumper_hit
    split
    · simp only [play_sound, uhs_score, uhs_high]
      split_ifs <;> omega
    · exact ⟨h0, h1, le_refl _⟩
  | goalScored =>
    dsimp only [stepEvent]
    unfold on_goal_scored
    simp only [play_sound, uhs_score, uhs_high, uhs_collected, uhs_mega,
      apply_ite GameState.score, apply_ite GameState.high_score,
      apply_ite GameState.collected, apply_ite GameState.mega_jackpot]
    split_ifs <;> omega
  | dropHit target_num =>
    dsimp only [stepEvent]
    rw [on_drop_score, on_drop_high]
    exact ⟨h0, h1, le_refl _⟩
  | ballDrained =>
    dsimp only [stepEvent]
    rw [on_drained_score, on_drained_high]
    exact ⟨h0, h1, le_refl _⟩
  | gameOverCheck =>
    dsimp only [stepEvent]
    unfold check_game_over
    split_ifs
    · refine ⟨le_refl 0, ?_, le_refl _⟩
      dsimp only
      omega
    · exact ⟨h0, h1, le_refl _⟩

theorem runEvents_inv (es : List GEvent) :
    ∀ s : GameState, 0 ≤ s.score → s.score ≤ s.high_score →
      0 ≤ (runEvents es s).score ∧
      (runEvents es s).score ≤ (runEvents es s).high_score ∧
      s.high_score ≤ (runEvents es s).high_score := by
  induction es with
  | nil => intro s h0 h1; exact ⟨h0, h1, le_refl _⟩
  | cons e rest ih =>
    intro s h0 h1
    have hstep := stepEvent_inv s e h0 h1
    have ihr := ih (stepEvent s e) hstep.1 hstep.2.1
    exact ⟨ihr.1, ihr.2.1, le_trans hstep.2.2 ihr.2.2⟩

/-- C6: across every sequence of dispatched event-handler calls the high
score is monotonically non-decreasing and, after any handler returns,
high score is at least the score; and `update_high_score` writes the new
high score to storage exactly when the current score strictly exceeds the
stored high score. -/
theorem C6_high_score_invariant (es : List GEvent) (s0 : GameState)
    (h0 : 0 ≤ s0.score) (h1 : s0.score ≤ s0.high_score) :
    (0 ≤ (runEvents es s0).score ∧
     (runEvents es s0).score ≤ (runEvents es s0).high_score ∧
     s0.high_score ≤ (runEvents es s0).high_score) ∧
    (∀ s : GameState,
      ((update_high_score s).high_score = s.score ∧
       (update_high_score s).saves = s.saves ++ [s.score]) ↔
      s.high_score < s.score) := by
  refine ⟨runEvents_inv es s0 h0 h1, ?_⟩
  intro s
  constructor
  · rintro ⟨hh, hs⟩
    by_contra hlt
    push_neg at hlt
    have hid2 : update_high_score s = s := by
      unfold update_high_score
      rw [if_neg (by omega)]
    rw [hid2] at hs
    have := congrArg List.length hs
    simp at this
  · intro h
    unfold update_high_score save_high_score
    rw [if_pos (by omega)]
    exact ⟨rfl, rfl⟩

/-- C6 witness: a goal then a target hit from the initial state. -/
theorem C6_high_score_invariant_witness :
    0 ≤ (runEvents [GEvent.goalScored, GEvent.targetHit 1] initState).score ∧
    (runEvents [GEvent.goalScored, GEvent.targetHit 1] initState).score ≤
      (runEvents [GEvent.goalScored, GEvent.targetHit 1] initState).high_score ∧
    initState.high_score ≤
      (runEvents [GEvent.goalScored, GEvent.targetHit 1] initState).high_score :=
  (C6_high_score_invariant [GEvent.goalScored, GEvent.targetHit 1] initState
    (by simp [initState]) (by simp [initState, load_high_score])).1

-- ============================================================
-- C7: loading the persisted high score
-- ============================================================

/-- C7 counterexample: Python's `int(...)` accepts a leading minus sign, so
a high-score file containing "-5" loads as the negative value -5; the
loaded value is not non-negative for every possible file content. -/
theorem C7_load_nonneg_counterexample :
    load_high_score (some "-5") = -5 ∧ load_high_score (some "-5") < 0 := by
  constructor <;> decide

/-- C7 (amended): `load_high_score` returns 0 when the file is missing or
its content is malformed, and returns the parsed integer otherwise; the
result is non-negative whenever the content parses as a natural number
(in particular for every file `save_high_score` writes from a non-negative
score), but a hand-edited content such as "-5" yields a negative value. -/
theorem C7_load_amended (c : String) :
    load_high_score none = 0 ∧
    (pyParseInt (pyStrip c) = none → load_high_score (some c) = 0) ∧
    (∀ n : Nat, pyParseInt (pyStrip c) = some (n : Int) →
      0 ≤ load_high_score (some c)) := by
  refine ⟨rfl, ?_, ?_⟩
  · intro h
    simp [load_high_score, h]
  · intro n h
    simp only [load_high_score, h]
    omega

/-- C7 amended witness: a malformed content loads as 0 and a plain numeral
loads non-negatively. -/
theorem C7_load_amended_witness :
    load_high_score (some "abc") = 0 ∧ 0 ≤ load_high_score (some "42") :=
  ⟨(C7_load_amended "abc").2.1 (by decide),
   (C7_load_amended "42").2.2 42 (by decide)⟩

-- ============================================================
-- C8: the mode state machine
-- ============================================================

/-- C8 counterexample: the `SystemMode` enum of the source has only the
three members `ATTRACT_MODE`, `GAMEPLAY_MODE`, `TEST_MODE`; there is no
fourth (GameOver) state, so no four distinct modes exist. -/
theorem C8_mode_counterexample :
    ¬ ∃ f : Fin 4 → SystemMode, Function.Injective f := by decide

/-- C8 (amended): the mode state machine has exactly the three states
Attract, Gameplay and Test (exactly one of which the single mode variable
holds); game over is not a distinct mode but a screen-and-reset performed
inside the gameplay loop exactly when balls-remaining has reached 0
(`balls_left <= 0`), keeping the high score. -/
theorem C8_mode_amended :
    Fintype.card SystemMode = 3 ∧
    (∀ m : SystemMode, m = SystemMode.ATTRACT_MODE ∨
      m = SystemMode.GAMEPLAY_MODE ∨ m = SystemMode.TEST_MODE) ∧
    (∀ s : GameState, 0 < s.balls_left → check_game_over s = s) ∧
    (∀ s : GameState, s.balls_left ≤ 0 →
      (check_game_over s).score = 0 ∧ (check_game_over s).balls_left = 2 ∧
      (check_game_over s).high_score = s.high_score) := by
  refine ⟨by decide, by intro m; cases m <;> simp, ?_, ?_⟩
  · intro s h
    unfold check_game_over
    rw [if_neg (by omega)]
  · intro s h
    unfold check_game_over
    rw [if_pos h]
    exact ⟨rfl, rfl, rfl⟩

/-- C8 amended witness: no transition while balls remain; reset at 0. -/
theorem C8_mode_amended_witness :
    check_game_over initState = initState ∧
    (check_game_over { initState with balls_left := 0 }).score = 0 ∧
    (check_game_over { initState with balls_left := 0 }).balls_left = 2 := by
  have h := C8_mode_amended
  exact ⟨h.2.2.1 initState (by norm_num [initState]),
         (h.2.2.2 { initState with balls_left := 0 } (by simp)).1,
         (h.2.2.2 { initState with balls_left := 0 } (by simp)).2.1⟩

-- ============================================================
-- C9: game over acknowledged
-- ============================================================

/-- C9: when `check_game_over` runs with balls-remaining at 0, the score is
reset to 0, progress to 0, the jackpot flag to false, balls-remaining to
the full initial 2, and every other component of the game state, the high
score included, is left unchanged. -/
theorem C9_game_over_reset (s : GameState) (h : s.balls_left = 0) :
    check_game_over s =
      { s with score := 0, balls_left := 2, collected := 0,
               mega_jackpot := false } := by
  unfold check_game_over
  rw [if_pos (by omega)]

/-- C9 witness: acknowledging at 0 balls with score 777 resets the round. -/
theorem C9_game_over_reset_witness :
    check_game_over { initState with balls_left := 0, score := 777 } =
      { initState with balls_left := 2, score := 0 } := by
  rw [C9_game_over_reset { initState with balls_left := 0, score := 777 } rfl]
  rfl
